import Mathlib

/-!
Verification development for session_tunes.py, a scraper that fetches tune
pages from thesession.org, extracts fields from their HTML, and merges the
records into a persisted dataset.  The Python source is embedded shallowly:
HTML documents become a tree type, BeautifulSoup lookups become searches over
that tree, Python exceptions become an explicit error type threaded through
Except, and the requests-level network is an oracle argument.
-/

namespace SessionTunes

/-- The Python exceptions that can arise in session_tunes.py. -/
inductive PyErr where
  | httpError          -- requests.HTTPError
  | assertionError     -- AssertionError
  | keyError           -- KeyError (missing tag attribute)
  | valueError         -- ValueError (failed int())
  | unboundLocalError  -- referencing a local variable that was never assigned
  deriving DecidableEq, Repr

/-- An HTML node: an element with tag, attributes and children, or a text
node.  This models the BeautifulSoup document tree. -/
inductive Node where
  | elem (tag : String) (attrs : List (String × String)) (children : List Node)
  | text (s : String)
  deriving Repr

mutual

/-- Concatenated text of all descendant text nodes: models bs4 `.text`. -/
def nodeText : Node → String
  | Node.text s => s
  | Node.elem _ _ cs => nodesText cs

/-- Text of a list of nodes, in order. -/
def nodesText : List Node → String
  | [] => ""
  | n :: ns => nodeText n ++ nodesText ns

end

example : nodeText (Node.elem "h1" [] [Node.elem "a" [] [Node.text "Reel"], Node.text " The Tune"]) = "Reel The Tune" := by decide

/-- bs4 `.string`: the single text child of a tag, descending through
single-child tags; none when the tag has zero or several children. -/
def nodeString : Node → Option String
  | Node.text s => some s
  | Node.elem _ _ [c] => nodeString c
  | Node.elem _ _ _ => none

/-- Look up an attribute value on an attribute list. -/
def attrVal (attrs : List (String × String)) (key : String) : Option String :=
  (attrs.find? (fun p => p.1 == key)).map (fun p => p.2)

/-- Split a character list into space-separated words (used to read a class
attribute the way the HTML parser splits it into a list of class names). -/
def splitWords : List Char → List Char → List (List Char)
  | [], acc => if acc.isEmpty then [] else [acc.reverse]
  | c :: rest, acc =>
    if c == ' ' then
      (if acc.isEmpty then splitWords rest [] else acc.reverse :: splitWords rest [])
    else splitWords rest (c :: acc)

/-- Does the class attribute contain the given class word?  bs4 treats the
class attribute as a whitespace-separated list of class names. -/
def hasClass (attrs : List (String × String)) (c : String) : Bool :=
  match attrVal attrs "class" with
  | some v => (splitWords v.data []).contains c.data
  | none => false

example : hasClass [("class", "big stats")] "stats" = true := by decide
example : hasClass [("class", "statistics")] "stats" = false := by decide

mutual

/-- First element node among the strict descendants of a node that satisfies
the matcher, in document (preorder) order: models bs4 `find`. -/
def findFirst (p : Node → Bool) : Node → Option Node
  | Node.text _ => none
  | Node.elem _ _ cs => findFirstList p cs

/-- First match within a list of sibling subtrees, in document order. -/
def findFirstList (p : Node → Bool) : List Node → Option Node
  | [] => none
  | n :: ns =>
    if p n then some n
    else
      match findFirst p n with
      | some r => some r
      | none => findFirstList p ns

end

mutual

/-- All element nodes among the strict descendants of a node that satisfy the
matcher, in document order: models bs4 `findAll`. -/
def findAllNode (p : Node → Bool) : Node → List Node
  | Node.text _ => []
  | Node.elem _ _ cs => findAllList p cs

/-- All matches within a list of sibling subtrees, in document order. -/
def findAllList (p : Node → Bool) : List Node → List Node
  | [] => []
  | n :: ns => (if p n then [n] else []) ++ findAllNode p n ++ findAllList p ns

end

/-- Matcher for `find(tag)`: an element with the given tag name. -/
def isTag (t : String) (n : Node) : Bool :=
  match n with
  | Node.elem tag _ _ => tag == t
  | Node.text _ => false

/-- Matcher for `find(tag, attrs=\x7b'class': c\x7d)`. -/
def isTagClass (t c : String) (n : Node) : Bool :=
  match n with
  | Node.elem tag attrs _ => tag == t && hasClass attrs c
  | Node.text _ => false

/-- Matcher for `find(class_=c)`: any element carrying the class. -/
def isClass (c : String) (n : Node) : Bool :=
  match n with
  | Node.elem _ attrs _ => hasClass attrs c
  | Node.text _ => false

example :
    findFirst (isTag "a") (Node.elem "h1" [] [Node.elem "a" [] [Node.text "Reel"], Node.text " The Tune"]) =
      some (Node.elem "a" [] [Node.text "Reel"]) := by
  simp [findFirst, findFirstList, isTag]

/-! ### Text patterns

The source uses three regular expressions with `re.IGNORECASE` to locate
anchors by their visible text, plus the shared `[\d,]+` count pattern.  Each
is modelled as an executable matcher over lists of characters; `searchFrom`
models `re.search` trying every start position from left to right. -/

/-- A character matched by the regex class `[\d,]`: a digit or a comma. -/
def isNumChar (c : Char) : Bool := c.isDigit || c == ','

/-- Case-insensitive "text starts with pattern" (the literal parts of the
patterns are matched under re.IGNORECASE). -/
def ciStartsWith : List Char → List Char → Bool
  | [], _ => true
  | _ :: _, [] => false
  | p :: ps, c :: cs => (p.toLower == c.toLower) && ciStartsWith ps cs

/-- `re.search`: does the matcher fire at some position of the text? -/
def searchFrom (m : List Char → Bool) : List Char → Bool
  | [] => m []
  | c :: t => m (c :: t) || searchFrom m t

/-- Match of `[\d,]+ other tune collections` at the head of the text.  The
literal part begins with a space, which `[\d,]` cannot match, so the greedy
maximal run needs no backtracking. -/
def collectionsAt (l : List Char) : Bool :=
  let run := l.takeWhile isNumChar
  !run.isEmpty && ciStartsWith " other tune collections".data (l.drop run.length)

/-- Match of `[\d,] tune sets` (note: a single class character, the source
pattern has no `+`) at the head of the text. -/
def tuneSetsAt : List Char → Bool
  | c :: rest => isNumChar c && ciStartsWith " tune sets".data rest
  | [] => false

/-- Match of `has been added to [\d,]+ tunebooks` at the head of the text. -/
def tuneBooksAt (l : List Char) : Bool :=
  ciStartsWith "has been added to ".data l &&
    (let rest := l.drop "has been added to ".length
     let run := rest.takeWhile isNumChar
     !run.isEmpty && ciStartsWith " tunebooks".data (rest.drop run.length))

/-- Matcher for `find(tag, string=regex)`: bs4 matches tags whose `.string`
is set and on which the regex search succeeds. -/
def isTagStringSearch (t : String) (m : List Char → Bool) (n : Node) : Bool :=
  match n with
  | Node.elem tag _ _ =>
    tag == t &&
      (match nodeString n with
       | some s => searchFrom m s.data
       | none => false)
  | Node.text _ => false

/-! ### parse_count -/

/-- The first match of `[\d,]+` in the text: the run starting at the first
digit-or-comma character, extended greedily. -/
def firstNumRun : List Char → Option (List Char)
  | [] => none
  | c :: rest =>
    if isNumChar c then some (c :: rest.takeWhile isNumChar)
    else firstNumRun rest

/-- Value of a list of decimal digit characters, as `int` reads it. -/
def digitsToNat (l : List Char) : Nat :=
  l.foldl (fun acc c => 10 * acc + (c.toNat - 48)) 0

/-- parse_count (session_tunes.py lines 276-292): search the text for the
first `[\d,]+` run, strip the commas, and parse the rest as an integer.  A
missing run raises AttributeError on `.group()` and an all-comma run makes
`int('')` raise ValueError; both are caught and yield None. -/
def parse_count (text : String) : Option Nat :=
  match firstNumRun text.data with
  | none => none
  | some run =>
    let digits := run.filter (fun c => !(c == ','))
    if digits.isEmpty then none else some (digitsToNat digits)

example : parse_count "1,234 recordings" = some 1234 := by decide
example : parse_count "no numbers here" = none := by decide
example : parse_count ", 5" = none := by decide
example : parse_count ",5" = some 5 := by decide

/-! ### Python string primitives used by the extractors -/

/-- Python `s.rstrip(chars)`: remove the longest trailing run of characters
that occur anywhere in `chars` (a character set, not a suffix string). -/
def pyRstrip (s : List Char) (chars : List Char) : List Char :=
  (s.reverse.dropWhile (fun c => chars.contains c)).reverse

example : pyRstrip "Reel The Tune".data "Reel".data = "Reel The Tun".data := by decide
example : pyRstrip "The Tune Reel".data "Reel".data = "The Tune ".data := by decide

/-- Python `s.replace(old, '')`: delete every occurrence of `old`, scanning
left to right without rescanning the produced text. -/
def replAll (pat : List Char) : List Char → List Char
  | [] => []
  | c :: rest =>
    if h : !pat.isEmpty && pat.isPrefixOf (c :: rest) then
      replAll pat ((c :: rest).drop pat.length)
    else
      c :: replAll pat rest
termination_by l => l.length
decreasing_by
  · simp only [Bool.and_eq_true, Bool.not_eq_true', List.isEmpty_eq_false] at h
    have hp : pat.length ≠ 0 := fun h0 => h.1 (List.eq_nil_of_length_eq_zero h0)
    simp [List.length_drop]
    omega
  · simp

/-- Does the pattern occur (as a contiguous sublist) anywhere in the text?
Used to express positions where Python replace finds nothing. -/
def hasMatch (pat : List Char) : List Char → Bool
  | [] => pat.isPrefixOf []
  | c :: t => pat.isPrefixOf (c :: t) || hasMatch pat t

/-- Python `int(s)` on an attribute value: optional surrounding whitespace,
optional sign, then decimal digits; anything else raises ValueError. -/
def pyInt (s : String) : Option Int :=
  let ws : Char → Bool := fun c => c == ' ' || c == '\t' || c == '\n'
  let t := ((s.data.dropWhile ws).reverse.dropWhile ws).reverse
  match t with
  | '-' :: ds => if !ds.isEmpty && ds.all Char.isDigit then some (-(digitsToNat ds : Int)) else none
  | '+' :: ds => if !ds.isEmpty && ds.all Char.isDigit then some ((digitsToNat ds : Int)) else none
  | ds => if !ds.isEmpty && ds.all Char.isDigit then some ((digitsToNat ds : Int)) else none

example : pyInt "123" = some 123 := by decide
example : pyInt "x1" = none := by decide

/-! ### Field extractors -/

/-- parse_h1 (lines 133-160): tune type and name from the H1 heading.

bs4 `find` returns None (it does not raise) when no H1 exists, so the
`except` branch returning the pair ('H1 Error', 'H1 Error') at lines 145-146
is unreachable.  With `h1 = None`, `h1.find('a')` and `h1.text` both raise
AttributeError, each caught separately, giving ('Error', 'Error').  When the
H1 exists the name is `h1.text.rstrip(tune_type).rstrip(' ')` — Python
rstrip, which strips a trailing run of characters drawn from `tune_type`
viewed as a character set. -/
def parse_h1 (soup_obj : Node) : String × String :=
  match findFirst (isTag "h1") soup_obj with
  | none => ("Error", "Error")
  | some h1 =>
    let tune_type :=
      match findFirst (isTag "a") h1 with
      | none => "Error"   -- `.text` on None raises AttributeError, caught
      | some a => nodeText a
    let tune_name :=
      String.mk (pyRstrip (pyRstrip (nodeText h1).data tune_type.data) [' '])
    (tune_type, tune_name)

/-- The phrase stripped from the aliases paragraph (line 180). -/
def akaPhrase : List Char := "Also known as\n".data

/-- parse_paragraphs (lines 163-215): aliases string and the collections,
tune-sets and tune-books counts.  Each block is an independent try/except:
a missing anchor raises AttributeError on `.text`, caught, giving the
default ('' for aliases, 0 for the counts); but when the anchor exists and
parse_count returns None, that None is the result (no exception occurs). -/
def parse_paragraphs (soup_obj : Node) : String × Option Nat × Option Nat × Option Nat :=
  let aliases :=
    match findFirst (isTagClass "p" "info") soup_obj with
    | none => ""
    | some p => String.mk (replAll akaPhrase (nodeText p).data)
  let collections :=
    match findFirst (isTagStringSearch "a" collectionsAt) soup_obj with
    | none => some 0
    | some a => parse_count (nodeText a)
  let tune_sets :=
    match findFirst (isTagStringSearch "a" tuneSetsAt) soup_obj with
    | none => some 0
    | some a => parse_count (nodeText a)
  let tune_books :=
    match findFirst (isTagStringSearch "p" tuneBooksAt) soup_obj with
    | none => some 0
    | some p => parse_count (nodeText p)
  (aliases, collections, tune_sets, tune_books)

/-- parse_summary (lines 218-237): recordings count from the first
`<details>` element's `<summary>` anchor.  A missing details/summary/anchor
raises AttributeError, caught, giving 0; a found anchor whose text has no
digits makes parse_count return None, which is returned as-is. -/
def parse_summary (soup_obj : Node) : Option Nat :=
  match findFirst (isTag "details") soup_obj with
  | none => some 0
  | some d =>
    match findFirst (isTag "summary") d with
    | none => some 0
    | some s =>
      match findFirst (isTag "a") s with
      | none => some 0
      | some a => parse_count (nodeText a)

/-- One anchor's `int(tune['data-tuneid'])` (line 253): a missing attribute
raises KeyError and a non-numeric value raises ValueError; neither is in the
`except (TypeError, AttributeError)` clause of parse_stats, so both
propagate. -/
def tuneIdOf (n : Node) : Except PyErr Int :=
  match n with
  | Node.elem _ attrs _ =>
    (match attrVal attrs "data-tuneid" with
     | none => Except.error PyErr.keyError
     | some v =>
       match pyInt v with
       | none => Except.error PyErr.valueError
       | some i => Except.ok i)
  | Node.text _ => Except.error PyErr.keyError

/-- The list comprehension of parse_stats over all anchors, stopping at the
first uncaught exception. -/
def tuneIdsOf : List Node → Except PyErr (List Int)
  | [] => Except.ok []
  | n :: ns =>
    match tuneIdOf n with
    | Except.error e => Except.error e
    | Except.ok i =>
      match tuneIdsOf ns with
      | Except.error e => Except.error e
      | Except.ok rest => Except.ok (i :: rest)

/-- parse_stats (lines 240-256): the data-tuneid of every anchor under the
class='stats' region.  When the region is missing, `None.findAll('a')`
raises AttributeError, which is caught, returning None.  KeyError and
ValueError from the comprehension are not caught and propagate. -/
def parse_stats (soup_obj : Node) : Except PyErr (Option (List Int)) :=
  match findFirst (isClass "stats") soup_obj with
  | none => Except.ok none
  | some st =>
    match tuneIdsOf (findAllNode (isTag "a") st) with
    | Except.error e => Except.error e
    | Except.ok ids => Except.ok (some ids)

/-- parse_tabs (lines 259-273): the number of
`<div class='setting-sheetmusic'>` elements; findAll cannot raise, so this
is total, and an absent element yields the empty list, counted as 0. -/
def parse_tabs (soup_obj : Node) : Nat :=
  (findAllNode (isTagClass "div" "setting-sheetmusic") soup_obj).length

/-- One extracted record (the dictionary built in strain_soup).  Fields that
can be Python None are Options. -/
structure TuneRecord where
  id : Nat
  name : String
  aliases : String
  tuneType : String
  set_pairings : Option (List Int)
  tabs : Nat
  recordings : Option Nat
  collections : Option Nat
  sets : Option Nat
  books : Option Nat
  deriving DecidableEq, Repr

/-- strain_soup (lines 99-130): run every extractor and build the record.
Only parse_stats can raise (KeyError/ValueError), which propagates. -/
def strain_soup (soup : Node) (tune_id : Nat) : Except PyErr TuneRecord :=
  let (tune_type, tune_name) := parse_h1 soup
  let recordings := parse_summary soup
  match parse_stats soup with
  | Except.error e => Except.error e
  | Except.ok recorded_with =>
    let (aliases, collections, tune_sets, tune_books) := parse_paragraphs soup
    let tabs := parse_tabs soup
    Except.ok
      { id := tune_id
        name := tune_name
        aliases := aliases
        tuneType := tune_type
        set_pairings := recorded_with
        tabs := tabs
        recordings := recordings
        collections := collections
        sets := tune_sets
        books := tune_books }

example :
    strain_soup (Node.elem "html" [] []) 1 =
      Except.ok ⟨1, "Error", "", "Error", none, 0, some 0, some 0, some 0, some 0⟩ := rfl

/-! ### Fetcher -/

/-- An HTTP response: status code and body.  The body is carried as the
document that BeautifulSoup would parse from `r.text`. -/
structure Response where
  status : Nat
  body : Node

/-- The retry loop of get_soup (lines 34-41), `while awaiting_response and
attempts < 2`, written with the remaining permitted attempts
(`2 - attempts`) as explicit structural fuel.  `net k` is the outcome of the
k-th `requests.get` call (error = any transport-level exception, caught by
the bare except, which increments `attempts`).  Returns the final value of
`r` (none when never assigned) and the number of calls made. -/
def requestLoopAux (net : Nat → Except Unit Response) : Nat → Nat → Option Response × Nat
  | attempts, 0 => (none, attempts)
  | attempts, fuelLeft + 1 =>
    match net attempts with
    | Except.ok r => (some r, attempts + 1)
    | Except.error _ =>
      have _ := fuelLeft   -- loop again with attempts incremented
      requestLoopAux net (attempts + 1) fuelLeft

/-- The whole retry loop, started at attempts = 0 with bound 2. -/
def requestLoop (net : Nat → Except Unit Response) : Option Response × Nat :=
  requestLoopAux net 0 2

/-- The status check of get_soup (lines 44-47) before the bare except is
applied: `r.raise_for_status()` raises UnboundLocalError when `r` was never
assigned (both attempts failed), and HTTPError on a non-2xx/3xx status. -/
def raiseForStatus (r : Option Response) : Except PyErr Response :=
  match r with
  | none => Except.error PyErr.unboundLocalError
  | some r => if 400 ≤ r.status then Except.error PyErr.httpError else Except.ok r

/-- get_soup (lines 22-51): run the retry loop, then the status check; the
bare `except:` at line 46 catches whatever the check raised (including the
UnboundLocalError for an unset `r`) and re-raises `requests.HTTPError`.  On
success, the parsed document (the response body) is returned. -/
def get_soup (net : Nat → Except Unit Response) : Except PyErr Node :=
  match raiseForStatus (requestLoop net).1 with
  | Except.error _ => Except.error PyErr.httpError
  | Except.ok r => Except.ok r.body

example : get_soup (fun _ => Except.error ()) = Except.error PyErr.httpError := rfl
example : get_soup (fun _ => Except.ok ⟨404, Node.elem "html" [] []⟩) = Except.error PyErr.httpError := rfl
example :
    get_soup (fun k => if k == 0 then Except.error () else Except.ok ⟨200, Node.text "x"⟩) =
      Except.ok (Node.text "x") := rfl
example : (requestLoop (fun _ => Except.error ())).2 = 2 := by decide
example : (requestLoop (fun _ => Except.ok ⟨200, Node.text "x"⟩)).2 = 1 := by decide

/-! ### Batch driver -/

/-- The `library` argument of get_session_tunes, as a Python value: either an
actual list of records, or a value of some other type (for which
`type(library) == list` is false). -/
inductive Library where
  | pyList (l : List TuneRecord)
  | nonList
  deriving Repr

/-- What one call of get_session_tunes produces: the returned tune list plus
the two values reported by the final print statement (line 95), the
identifier range string and the count `len(tune_list)`. -/
structure BatchReport where
  tunes : List TuneRecord
  idRange : String
  reportedCount : Nat
  deriving DecidableEq, Repr

/-- The identifiers `range(start, start + pages)`, in increasing order. -/
def idList (start pages : Nat) : List Nat :=
  (List.range pages).map (fun i => start + i)

/-- The per-identifier loop of get_session_tunes (lines 81-92).  Each
identifier is fetched with get_soup over its own network oracle `net num`;
`except requests.HTTPError: continue` skips the identifier on an HTTP
failure; any other exception kind is not caught and propagates — as does
any exception from strain_soup, which runs outside the try block. -/
def tunesLoop (net : Nat → Nat → Except Unit Response) :
    List Nat → List TuneRecord → Except PyErr (List TuneRecord)
  | [], tune_list => Except.ok tune_list
  | num :: rest, tune_list =>
    match get_soup (net num) with
    | Except.error PyErr.httpError => tunesLoop net rest tune_list
    | Except.error e => Except.error e
    | Except.ok soup =>
      match strain_soup soup num with
      | Except.error e => Except.error e
      | Except.ok strained => tunesLoop net rest (tune_list ++ [strained])

/-- get_session_tunes (lines 54-96).  `net num k` is the outcome of the k-th
requests.get attempt for tune `num`.  A provided non-list library fails the
`assert type(library) == list`, re-raised as AssertionError("library must be
a 1D list."), before any identifier is fetched; a provided list becomes the
initial tune_list and is extended in place.  The returned report carries the
final tune list, the printed id range string f'\x7bstart\x7d-\x7bstart +
pages - 1\x7d', and the printed count len(tune_list). -/
def get_session_tunes (net : Nat → Nat → Except Unit Response) (pages : Nat)
    (start : Nat) (library : Option Library) : Except PyErr BatchReport :=
  match library with
  | some Library.nonList => Except.error PyErr.assertionError
  | some (Library.pyList l) =>
    (match tunesLoop net (idList start pages) l with
     | Except.error e => Except.error e
     | Except.ok tune_list =>
       Except.ok ⟨tune_list, toString start ++ "-" ++ toString (start + pages - 1), tune_list.length⟩)
  | none =>
    (match tunesLoop net (idList start pages) [] with
     | Except.error e => Except.error e
     | Except.ok tune_list =>
       Except.ok ⟨tune_list, toString start ++ "-" ++ toString (start + pages - 1), tune_list.length⟩)

/-! ### Persistence merge -/

/-- The merge step of main (lines 317-318): `pd.concat([library,
indexed_df])` appends the new batch's rows after the existing library's
rows; rows are never deduplicated or replaced, even when ids repeat. -/
def mergeBatch (library newRecords : List TuneRecord) : List TuneRecord :=
  library ++ newRecords

/-! ### Helper lemmas -/

/-- strain_soup always stores the identifier it was given in the id field. -/
theorem strain_soup_id (d : Node) (n : Nat) (r : TuneRecord)
    (h : strain_soup d n = Except.ok r) : r.id = n := by
  unfold strain_soup at h
  split at h
  split at h
  · cases h
  · split at h
    cases h
    rfl

/-- The tune loop only ever appends to the accumulated list. -/
theorem tunesLoop_sub (net : Nat → Nat → Except Unit Response) (ids : List Nat)
    (acc res : List TuneRecord) (h : tunesLoop net ids acc = Except.ok res) :
    acc <+: res := by
  induction ids generalizing acc with
  | nil =>
    simp only [tunesLoop] at h
    cases h
    exact List.prefix_rfl
  | cons n rest ih =>
    simp only [tunesLoop] at h
    split at h
    · exact ih _ h
    · cases h
    · rename_i soup _
      split at h
      · cases h
      · rename_i strained _
        exact (List.prefix_append acc [strained]).trans (ih _ h)

/-- Dropping a while-prefix whose members all satisfy the predicate skips
straight past them. -/
theorem dropWhile_append_all (p : Char → Bool) (w x : List Char)
    (h : ∀ c ∈ w, p c = true) :
    List.dropWhile p (w ++ x) = List.dropWhile p x := by
  induction w with
  | nil => rfl
  | cons c w' ih =>
    rw [List.cons_append, List.dropWhile_cons_of_pos (h c (by simp))]
    exact ih (fun c hc => h c (by simp [hc]))

/-- rstrip ignores a trailing block made only of stripped characters. -/
theorem pyRstrip_append_all (v u chars : List Char)
    (h : ∀ c ∈ u, chars.contains c = true) :
    pyRstrip (v ++ u) chars = pyRstrip v chars := by
  unfold pyRstrip
  rw [List.reverse_append, dropWhile_append_all _ _ _ (fun c hc => h c (List.mem_reverse.1 hc))]

/-- rstrip does nothing when the last character is not stripped. -/
theorem pyRstrip_last_keep (v : List Char) (c : Char) (chars : List Char)
    (h : chars.contains c = false) :
    pyRstrip (v ++ [c]) chars = v ++ [c] := by
  unfold pyRstrip
  rw [List.reverse_append]
  simp only [List.reverse_cons, List.reverse_nil, List.nil_append, List.singleton_append]
  rw [List.dropWhile_cons_of_neg (by simpa using h)]
  rw [List.reverse_cons, List.reverse_reverse]

/-! ### Claim theorems -/

/-- C7: the persistence merge appends the new batch to the persisted dataset
without deduplicating by id: merging the same batch twice leaves at least two
rows for each id occurring in the batch, and the second merge adds rows
(total length grows by the batch length each time) rather than replacing the
first merge's rows. -/
theorem mergeBatch_no_dedup (library batch : List TuneRecord) (r : TuneRecord)
    (h : r ∈ batch) :
    2 ≤ ((mergeBatch (mergeBatch library batch) batch).filter
          (fun x => x.id == r.id)).length ∧
    (mergeBatch (mergeBatch library batch) batch).length =
      library.length + 2 * batch.length := by
  constructor
  · have hmem : r ∈ batch.filter (fun x => x.id == r.id) :=
      List.mem_filter.2 ⟨h, by simp⟩
    have hpos : 0 < (batch.filter (fun x => x.id == r.id)).length :=
      List.length_pos_of_mem hmem
    simp only [mergeBatch, List.filter_append, List.length_append]
    omega
  · simp only [mergeBatch, List.length_append]
    ring

/-- Witness for C7 at a concrete library and batch. -/
theorem mergeBatch_no_dedup_witness :
    2 ≤ ((mergeBatch (mergeBatch []
            [⟨1, "A", "", "reel", none, 0, some 0, some 0, some 0, some 0⟩])
            [⟨1, "A", "", "reel", none, 0, some 0, some 0, some 0, some 0⟩]).filter
          (fun x => x.id == 1)).length :=
  (mergeBatch_no_dedup [] [⟨1, "A", "", "reel", none, 0, some 0, some 0, some 0, some 0⟩]
    ⟨1, "A", "", "reel", none, 0, some 0, some 0, some 0, some 0⟩ (by decide)).1

/-- C8: calling get_session_tunes with a non-list library raises
AssertionError whatever the network does (so before any fetch can matter),
and with a list library the call proceeds and extends that collection (the
provided records stay as a prefix of the result). -/
theorem get_session_tunes_library_contract (net : Nat → Nat → Except Unit Response)
    (pages start : Nat) (l : List TuneRecord) :
    get_session_tunes net pages start (some Library.nonList) =
      Except.error PyErr.assertionError ∧
    (∀ report, get_session_tunes net pages start (some (Library.pyList l)) =
        Except.ok report → l <+: report.tunes) := by
  refine ⟨rfl, fun report h => ?_⟩
  simp only [get_session_tunes] at h
  split at h
  · cases h
  · cases h
    exact tunesLoop_sub _ _ _ _ (by assumption)

/-- Witness for C8 at a concrete network oracle and library. -/
theorem get_session_tunes_library_contract_witness :
    get_session_tunes (fun _ _ => Except.error ()) 1 1 (some Library.nonList) =
      Except.error PyErr.assertionError :=
  (get_session_tunes_library_contract (fun _ _ => Except.error ()) 1 1 []).1

/-- C2: after a transport failure on the first attempt the fetcher makes
exactly one more call (two requests.get calls in total); if the retry also
fails, get_soup raises requests.HTTPError — the error kind the batch driver
catches — and never surfaces the undefined-state fault (the reference to the
unset result is raised inside the try block and converted by the bare
except); if instead the retry succeeds with a good status, its response is
used.  Moreover every error get_soup can raise is HTTPError. -/
theorem get_soup_retries_once (net : Nat → Except Unit Response)
    (h0 : net 0 = Except.error ()) :
    (requestLoop net).2 = 2 ∧
    (net 1 = Except.error () → get_soup net = Except.error PyErr.httpError) ∧
    (∀ r, net 1 = Except.ok r → r.status < 400 → get_soup net = Except.ok r.body) ∧
    (∀ e, get_soup net = Except.error e → e = PyErr.httpError) := by
  refine ⟨?_, ?_, ?_, ?_⟩
  · simp only [requestLoop, requestLoopAux, h0]
    cases h1 : net 1 <;> simp [requestLoopAux, h1]
  · intro h1
    simp [get_soup, requestLoop, requestLoopAux, raiseForStatus, h0, h1]
  · intro r h1 hs
    simp [get_soup, requestLoop, requestLoopAux, raiseForStatus, h0, h1, Nat.not_le.2 hs]
  · intro e he
    unfold get_soup at he
    split at he
    · cases he
      rfl
    · cases he

/-- Witness for C2: a network oracle that fails both attempts. -/
theorem get_soup_retries_once_witness :
    (requestLoop (fun _ => Except.error ())).2 = 2 ∧
    get_soup (fun _ => Except.error ()) = Except.error PyErr.httpError :=
  ⟨(get_soup_retries_once (fun _ => Except.error ()) rfl).1,
   (get_soup_retries_once (fun _ => Except.error ()) rfl).2.1 rfl⟩

/-- C4 (code bug in the source): for a document with no H1 element,
parse_h1 returns ('Error', 'Error'), not the ('H1 Error', 'H1 Error') pair
the spec states.  The branch returning the latter (lines 143-146) is dead:
bs4 find returns None instead of raising when nothing matches, so the
AttributeErrors happen at the later `h1.find('a')` and `h1.text` accesses,
whose handlers return 'Error'. -/
theorem parse_h1_no_h1_yields_error_pair :
    parse_h1 (Node.elem "html" [] [Node.text "no heading here"]) = ("Error", "Error") ∧
    parse_h1 (Node.elem "html" [] [Node.text "no heading here"]) ≠ ("H1 Error", "H1 Error") := by
  constructor
  · rfl
  · intro hcontra
    have : (("Error", "Error") : String × String) = ("H1 Error", "H1 Error") := by
      rw [← hcontra]
      rfl
    simp at this

/-- C5 counterexample: for a heading whose full text is 'Reel The Tune' with
type hyperlink text 'Reel', name extraction does not strip the type label as
a suffix: Python rstrip removes the longest trailing run of characters drawn
from the set of characters of 'Reel', yielding 'Reel The Tun', not
'The Tune'. -/
theorem parse_h1_rstrip_counterexample :
    parse_h1 (Node.elem "html" []
        [Node.elem "h1" [] [Node.elem "a" [] [Node.text "Reel"], Node.text " The Tune"]]) =
      ("Reel", "Reel The Tun") ∧
    ("Reel The Tun" : String) ≠ "The Tune" := by
  constructor
  · rfl
  · decide

/-- C5 amended: parse_h1 strips the type label as a trailing character-set
run (Python rstrip semantics), not as a suffix string.  For every heading of
the shape '<name> <type-link>' — the type label a space-separated trailing
link with no space inside it — the extracted name is the heading name with
trailing spaces removed; in particular heading text 'The Tune Reel' with
type link 'Reel' yields 'The Tune', whereas 'Reel The Tune' (type label
leading) yields 'Reel The Tun'. -/
theorem parse_h1_rstrip_amended :
    (∀ (nm t : String), (∀ c ∈ t.data, c ≠ ' ') →
      parse_h1 (Node.elem "html" []
          [Node.elem "h1" [] [Node.text (nm ++ " "), Node.elem "a" [] [Node.text t]]]) =
        (t, String.mk (pyRstrip nm.data [' ']))) ∧
    parse_h1 (Node.elem "html" []
        [Node.elem "h1" [] [Node.text "The Tune ", Node.elem "a" [] [Node.text "Reel"]]]) =
      ("Reel", "The Tune") ∧
    parse_h1 (Node.elem "html" []
        [Node.elem "h1" [] [Node.elem "a" [] [Node.text "Reel"], Node.text " The Tune"]]) =
      ("Reel", "Reel The Tun") := by
  refine ⟨?_, rfl, rfl⟩
  intro nm t hsp
  have hfind :
      findFirst (isTag "h1") (Node.elem "html" []
        [Node.elem "h1" [] [Node.text (nm ++ " "), Node.elem "a" [] [Node.text t]]]) =
      some (Node.elem "h1" [] [Node.text (nm ++ " "), Node.elem "a" [] [Node.text t]]) := by
    simp [findFirst, findFirstList, isTag]
  have hfinda :
      findFirst (isTag "a") (Node.elem "h1" [] [Node.text (nm ++ " "), Node.elem "a" [] [Node.text t]]) =
      some (Node.elem "a" [] [Node.text t]) := by
    simp [findFirst, findFirstList, isTag]
  simp only [parse_h1, hfind, hfinda, nodeText, nodesText, String.append_empty]
  congr 2
  · have hdata : ((nm ++ " ") ++ t).data = (nm.data ++ [' ']) ++ t.data := by
      simp [String.data_append]
    rw [hdata]
    rw [pyRstrip_append_all _ _ _ (fun c hc => by simp [List.contains, List.elem_eq_mem, hc])]
    rw [pyRstrip_last_keep _ _ _ (by
      simp only [List.contains, List.elem_eq_mem, decide_eq_false_iff_not]
      intro hmem
      exact hsp ' ' hmem rfl)]
    rw [pyRstrip_append_all _ _ _ (fun c hc => by
      simp only [List.mem_singleton] at hc
      simp [hc, List.contains])]

/-- Witness for the C5 amended statement at the heading 'The Tune Reel'. -/
theorem parse_h1_rstrip_amended_witness :
    parse_h1 (Node.elem "html" []
        [Node.elem "h1" [] [Node.text ("The Tune" ++ " "), Node.elem "a" [] [Node.text "Reel"]]]) =
      ("Reel", String.mk (pyRstrip "The Tune".data [' '])) :=
  parse_h1_rstrip_amended.1 "The Tune" "Reel" (by decide)

/-- C6 counterexample: a document whose stats region contains a hyperlink
without the data-tuneid attribute makes parse_stats raise KeyError (the
except clause lists only TypeError and AttributeError), rather than
returning None. -/
theorem parse_stats_missing_attr_raises :
    parse_stats (Node.elem "html" []
        [Node.elem "div" [("class", "stats")] [Node.elem "a" [] [Node.text "related"]]]) =
      Except.error PyErr.keyError ∧
    parse_stats (Node.elem "html" []
        [Node.elem "div" [("class", "stats")] [Node.elem "a" [] [Node.text "related"]]]) ≠
      Except.ok none := by
  constructor
  · rfl
  · intro hcontra
    have : (Except.error PyErr.keyError : Except PyErr (Option (List Int))) = Except.ok none := by
      rw [← hcontra]
      rfl
    simp at this

/-- C6 amended: parse_stats returns None only when the stats region is
missing (the caught AttributeError); when the region exists, the result is
the identifier list when every anchor carries a parsable data-tuneid, and
otherwise the comprehension's exception — KeyError for a missing attribute —
propagates uncaught. -/
theorem parse_stats_amended (d : Node) :
    (findFirst (isClass "stats") d = none → parse_stats d = Except.ok none) ∧
    (∀ st, findFirst (isClass "stats") d = some st →
      parse_stats d = (tuneIdsOf (findAllNode (isTag "a") st)).map some) ∧
    (∀ tag attrs cs, attrVal attrs "data-tuneid" = none →
      tuneIdOf (Node.elem tag attrs cs) = Except.error PyErr.keyError) := by
  refine ⟨fun hnone => ?_, fun st hsome => ?_, fun tag attrs cs hattr => ?_⟩
  · simp [parse_stats, hnone]
  · simp only [parse_stats, hsome]
    cases tuneIdsOf (findAllNode (isTag "a") st) <;> rfl
  · simp [tuneIdOf, hattr]

/-- Witness for C6 amended: a document with no stats region yields None, and
an anchor without the attribute raises KeyError. -/
theorem parse_stats_amended_witness :
    parse_stats (Node.elem "html" [] [Node.text "plain"]) = Except.ok none ∧
    tuneIdOf (Node.elem "a" [] [Node.text "related"]) = Except.error PyErr.keyError :=
  ⟨(parse_stats_amended (Node.elem "html" [] [Node.text "plain"])).1 rfl,
   (parse_stats_amended (Node.elem "html" [] [Node.text "plain"])).2.2 "a" [] [Node.text "related"] rfl⟩

/-- C3 counterexample: the input ', 5' contains a digit, yet parse_count
returns None: the first run of the class `[\d,]` is the lone comma before
the space, stripping commas leaves the empty string, and `int('')` raises
the ValueError that the handler turns into None. -/
theorem parse_count_digit_bearing_none :
    (", 5".data.any Char.isDigit) = true ∧ parse_count ", 5" = none := by
  decide

/-- Skipping a prefix of non-matching characters does not change the first
number run. -/
theorem firstNumRun_skip (pre x : List Char)
    (h : ∀ c ∈ pre, isNumChar c = false) :
    firstNumRun (pre ++ x) = firstNumRun x := by
  induction pre with
  | nil => rfl
  | cons c pre' ih =>
    rw [List.cons_append]
    simp only [firstNumRun]
    rw [if_neg (by simp [h c (by simp)])]
    exact ih (fun c hc => h c (by simp [hc]))

/-- Taking a while-prefix whose members all satisfy the predicate keeps it
whole and continues after it. -/
theorem takeWhile_append_all (p : Char → Bool) (w x : List Char)
    (h : ∀ c ∈ w, p c = true) :
    List.takeWhile p (w ++ x) = w ++ List.takeWhile p x := by
  induction w with
  | nil => rfl
  | cons c w' ih =>
    rw [List.cons_append, List.takeWhile_cons_of_pos (h c (by simp)), ih (fun c hc => h c (by simp [hc]))]
    rfl

/-- The exact first-run computation: a text made of a run-free prefix, a
nonempty maximal `[\d,]` run and a rest not starting with a run character
has precisely that run as its first match. -/
theorem firstNumRun_exact (pre run post : List Char)
    (hpre : ∀ c ∈ pre, isNumChar c = false)
    (hrun : ∀ c ∈ run, isNumChar c = true)
    (hne : run ≠ [])
    (hpost : (match post with | [] => true | c :: _ => !isNumChar c) = true) :
    firstNumRun (pre ++ run ++ post) = some run := by
  rw [List.append_assoc, firstNumRun_skip pre _ hpre]
  cases run with
  | nil => exact absurd rfl hne
  | cons c rest =>
    rw [List.cons_append]
    simp only [firstNumRun]
    rw [if_pos (hrun c (by simp))]
    congr 1
    rw [takeWhile_append_all _ _ _ (fun c hc => hrun c (by simp [hc]))]
    cases post with
    | nil => simp
    | cons d post' =>
      simp only [Bool.not_eq_true'] at hpost
      rw [List.takeWhile_cons_of_neg (by simp [hpost])]
      simp

/-- C3 amended: parse_count returns the integer of the first `[\d,]` run
with commas stripped whenever that first run contains at least one digit;
it returns None both for digit-free inputs and for digit-bearing inputs
whose first `[\d,]` run consists only of commas (as in ', 5'). -/
theorem parse_count_amended :
    (∀ (pre run post : List Char),
      (∀ c ∈ pre, isNumChar c = false) →
      (∀ c ∈ run, isNumChar c = true) →
      run.any Char.isDigit = true →
      (match post with | [] => true | c :: _ => !isNumChar c) = true →
      parse_count (String.mk (pre ++ run ++ post)) =
        some (digitsToNat (run.filter (fun c => !(c == ','))))) ∧
    (∀ t : String, t.data.all (fun c => !(c.isDigit)) = true → parse_count t = none) := by
  constructor
  · intro pre run post hpre hrun hdig hpost
    have hne : run ≠ [] := by
      intro h0
      rw [h0] at hdig
      cases hdig
    show (match firstNumRun (String.mk (pre ++ run ++ post)).data with
      | none => none
      | some r =>
        let digits := r.filter (fun c => !(c == ','))
        if digits.isEmpty then none else some (digitsToNat digits)) =
      some (digitsToNat (run.filter (fun c => !(c == ','))))
    have hdata : (String.mk (pre ++ run ++ post)).data = pre ++ run ++ post := rfl
    rw [hdata, firstNumRun_exact pre run post hpre hrun hne hpost]
    have hfilterne : run.filter (fun c => !(c == ',')) ≠ [] := by
      rcases List.any_eq_true.1 hdig with ⟨c, hc, hcd⟩
      have hmem : c ∈ run.filter (fun c => !(c == ',')) := by
        refine List.mem_filter.2 ⟨hc, ?_⟩
        have : c ≠ ',' := by
          intro he
          rw [he] at hcd
          cases hcd
        simp [this]
      exact fun h0 => by rw [h0] at hmem; cases hmem
    simp only [List.isEmpty_eq_false.2 hfilterne]
    rfl
  · intro t ht
    have haux : ∀ l : List Char, l.all (fun c => !(c.isDigit)) = true →
        firstNumRun l = none ∨
        ∃ r, firstNumRun l = some r ∧ ∀ c ∈ r, c = ',' := by
      intro l
      induction l with
      | nil => intro _; exact Or.inl rfl
      | cons c rest ih =>
        intro hall
        have hc : c.isDigit = false := by
          have := List.all_eq_true.1 hall c (by simp)
          simpa using this
        have hrest : rest.all (fun c => !(c.isDigit)) = true := by
          refine List.all_eq_true.2 (fun x hx => ?_)
          exact List.all_eq_true.1 hall x (by simp [hx])
        by_cases hnum : isNumChar c = true
        · refine Or.inr ⟨c :: rest.takeWhile isNumChar, ?_, ?_⟩
          · simp only [firstNumRun]
            rw [if_pos hnum]
          · intro x hx
            rcases List.mem_cons.1 hx with hxc | hxt
            · subst hxc
              unfold isNumChar at hnum
              rw [hc] at hnum
              exact eq_of_beq (by simpa using hnum)
            · have hxnum : isNumChar x = true := List.mem_takeWhile_imp hxt
              have hxrest : x ∈ rest := List.takeWhile_subset _ hxt
              have hxd : x.isDigit = false := by
                have := List.all_eq_true.1 hrest x hxrest
                simpa using this
              unfold isNumChar at hxnum
              rw [hxd] at hxnum
              exact eq_of_beq (by simpa using hxnum)
        · have : firstNumRun (c :: rest) = firstNumRun rest := by
            simp only [firstNumRun]
            rw [if_neg hnum]
          rcases ih hrest with h1 | ⟨r, hr, hrc⟩
          · exact Or.inl (this.trans h1)
          · exact Or.inr ⟨r, this.trans hr, hrc⟩
    rcases haux t.data ht with h1 | ⟨r, hr, hrc⟩
    · show (match firstNumRun t.data with
        | none => none
        | some r =>
          let digits := r.filter (fun c => !(c == ','))
          if digits.isEmpty then none else some (digitsToNat digits)) = none
      rw [h1]
    · show (match firstNumRun t.data with
        | none => none
        | some r =>
          let digits := r.filter (fun c => !(c == ','))
          if digits.isEmpty then none else some (digitsToNat digits)) = none
      rw [hr]
      have hempty : r.filter (fun c => !(c == ',')) = [] := by
        refine List.filter_eq_nil_iff.2 (fun a ha => ?_)
        simp [hrc a ha]
      simp [hempty]

/-- Witness for C3 amended: the run '1,234' in '1,234 recordings' parses to
1234, and a digit-free string parses to None. -/
theorem parse_count_amended_witness :
    parse_count (String.mk ([] ++ "1,234".data ++ " recordings".data)) =
      some (digitsToNat ("1,234".data.filter (fun c => !(c == ',')))) ∧
    parse_count "no digits at all" = none :=
  ⟨parse_count_amended.1 [] "1,234".data " recordings".data
      (by decide) (by decide) (by decide) (by decide),
   parse_count_amended.2 "no digits at all" (by decide)⟩

/-- C9 counterexample: with a pre-existing library of one record and a batch
of one identifier whose fetch fails, the printed count is len(tune_list) =
1, the size of the whole returned list, although zero records were extracted
during the call. -/
theorem get_session_tunes_count_counterexample :
    get_session_tunes (fun _ _ => Except.error ()) 1 5
        (some (Library.pyList [⟨7, "x", "", "y", none, 0, some 0, some 0, some 0, some 0⟩])) =
      Except.ok ⟨[⟨7, "x", "", "y", none, 0, some 0, some 0, some 0, some 0⟩], "5-5", 1⟩ ∧
    (1 : Nat) ≠ 0 := by
  exact ⟨rfl, by decide⟩

/-- C9 amended: the reported count is the length of the whole returned tune
list — pre-existing library records plus the records extracted during the
call — so it equals the number extracted only when no library is passed; the
reported identifier range is always the full attempted range
start..start+pages-1, regardless of failures. -/
theorem get_session_tunes_report (net : Nat → Nat → Except Unit Response)
    (pages start : Nat) (library : Option Library) (report : BatchReport)
    (h : get_session_tunes net pages start library = Except.ok report) :
    report.reportedCount = report.tunes.length ∧
    report.idRange = toString start ++ "-" ++ toString (start + pages - 1) := by
  unfold get_session_tunes at h
  split at h
  · cases h
  · split at h
    · cases h
    · cases h
      exact ⟨rfl, rfl⟩
  · split at h
    · cases h
    · cases h
      exact ⟨rfl, rfl⟩

/-- Witness for C9 amended at a concrete failing batch. -/
theorem get_session_tunes_report_witness :
    (⟨[], toString 1 ++ "-" ++ toString 1, 0⟩ : BatchReport).reportedCount =
      (⟨[], toString 1 ++ "-" ++ toString 1, 0⟩ : BatchReport).tunes.length ∧
    (⟨[], toString 1 ++ "-" ++ toString 1, 0⟩ : BatchReport).idRange =
      toString 1 ++ "-" ++ toString (1 + 1 - 1) :=
  get_session_tunes_report (fun _ _ => Except.error ()) 1 1 none
    ⟨[], toString 1 ++ "-" ++ toString 1, 0⟩ rfl

/-- C1: for a batch of 3 identifiers from start where fetching start+1 ends
in an HTTP error while start and start+2 fetch documents whose extraction
succeeds, get_session_tunes with no library returns exactly the two records
for start and start+2 in that order, reports the attempted range string
'start-(start+2)' and reports the count 2. -/
theorem get_session_tunes_batch3 (net : Nat → Nat → Except Unit Response)
    (start : Nat) (d1 d3 : Node) (r1 r3 : TuneRecord)
    (hf1 : get_soup (net start) = Except.ok d1)
    (hf2 : get_soup (net (start + 1)) = Except.error PyErr.httpError)
    (hf3 : get_soup (net (start + 2)) = Except.ok d3)
    (hs1 : strain_soup d1 start = Except.ok r1)
    (hs3 : strain_soup d3 (start + 2) = Except.ok r3) :
    get_session_tunes net 3 start none =
      Except.ok ⟨[r1, r3], toString start ++ "-" ++ toString (start + 2), 2⟩ ∧
    r1.id = start ∧ r3.id = start + 2 := by
  refine ⟨?_, strain_soup_id _ _ _ hs1, strain_soup_id _ _ _ hs3⟩
  have hids : idList start 3 = [start, start + 1, start + 2] := rfl
  have hloop : tunesLoop net [start, start + 1, start + 2] [] = Except.ok [r1, r3] := by
    simp only [tunesLoop, hf1, hs1, hf2, hf3, hs3, List.nil_append, List.cons_append]
  simp only [get_session_tunes, hids, hloop]
  rfl

/-- Witness for C1: a concrete network where identifier 2 out of 1..3 fails
both attempts and the others return an empty page. -/
theorem get_session_tunes_batch3_witness :
    get_session_tunes
        (fun num _ => if num == 2 then Except.error ()
          else Except.ok ⟨200, Node.elem "html" [] []⟩) 3 1 none =
      Except.ok ⟨[⟨1, "Error", "", "Error", none, 0, some 0, some 0, some 0, some 0⟩,
                  ⟨3, "Error", "", "Error", none, 0, some 0, some 0, some 0, some 0⟩],
        toString 1 ++ "-" ++ toString 3, 2⟩ :=
  (get_session_tunes_batch3
    (fun num _ => if num == 2 then Except.error ()
      else Except.ok ⟨200, Node.elem "html" [] []⟩)
    1 (Node.elem "html" [] []) (Node.elem "html" [] [])
    ⟨1, "Error", "", "Error", none, 0, some 0, some 0, some 0, some 0⟩
    ⟨3, "Error", "", "Error", none, 0, some 0, some 0, some 0, some 0⟩
    rfl rfl rfl rfl rfl).1

/-- Python replace leaves a text alone when the pattern occurs nowhere. -/
theorem replAll_no_match (pat l : List Char) (h : hasMatch pat l = false) :
    replAll pat l = l := by
  induction l with
  | nil => simp [replAll]
  | cons c t ih =>
    simp only [hasMatch, Bool.or_eq_false_iff] at h
    simp only [replAll]
    rw [dif_neg (by simp [h.1])]
    rw [ih h.2]

/-- Python replace deletes a nonempty pattern standing at the front and goes
on after it. -/
theorem replAll_head (pat l : List Char) (hne : pat ≠ []) :
    replAll pat (pat ++ l) = replAll pat l := by
  cases pat with
  | nil => exact absurd rfl hne
  | cons p ps =>
    rw [List.cons_append]
    simp only [replAll]
    rw [dif_pos (by
      rw [Bool.and_eq_true]
      refine ⟨by simp, ?_⟩
      rw [ List.isPrefixOf_iff_prefix, ← List.cons_append]
      exact List.prefix_append _ _)]
    rw [← List.cons_append, List.drop_left]

/-- C10: the aliases extractor removes the phrase 'Also known as\n' at every
position, not only a leading one.  For every supplementary-info paragraph
text of the shape a ++ phrase ++ b in which that is the only occurrence of
the phrase — no occurrence starts inside the (nonempty) prefix a and none
occurs in b — the interior occurrence is deleted: the extracted aliases
string is a ++ b. -/
theorem parse_paragraphs_aliases_interior (a b : List Char) (ha : a ≠ [])
    (h1 : ∀ i, i < a.length → akaPhrase.isPrefixOf (a.drop i ++ akaPhrase ++ b) = false)
    (h2 : hasMatch akaPhrase b = false) :
    (parse_paragraphs (Node.elem "html" []
        [Node.elem "p" [("class", "info")]
          [Node.text (String.mk (a ++ akaPhrase ++ b))]])).1 =
      String.mk (a ++ b) := by
  have hfound :
      findFirst (isTagClass "p" "info") (Node.elem "html" []
        [Node.elem "p" [("class", "info")] [Node.text (String.mk (a ++ akaPhrase ++ b))]]) =
      some (Node.elem "p" [("class", "info")] [Node.text (String.mk (a ++ akaPhrase ++ b))]) := by
    simp [findFirst, findFirstList, isTagClass, hasClass, attrVal, splitWords]
  have hrepl : ∀ (a' : List Char),
      (∀ i, i < a'.length → akaPhrase.isPrefixOf (a'.drop i ++ akaPhrase ++ b) = false) →
      replAll akaPhrase (a' ++ akaPhrase ++ b) = a' ++ b := by
    intro a'
    induction a' with
    | nil =>
      intro _
      simp only [List.nil_append]
      rw [replAll_head _ _ (by decide), replAll_no_match _ _ h2]
    | cons c a'' ih =>
      intro hno
      rw [List.cons_append, List.cons_append]
      simp only [replAll]
      have h0 : ¬ (akaPhrase <+: c :: (a'' ++ (akaPhrase ++ b))) := by
        have h0 := hno 0 (by simp)
        simp only [List.drop_zero, List.cons_append, List.append_assoc] at h0
        rw [Bool.eq_false_iff] at h0
        intro hpre
        exact h0 ( List.isPrefixOf_iff_prefix.2 hpre)
      rw [dif_neg (by simp [h0])]
      rw [List.cons_append]
      congr 1
      exact ih (fun i hi => by
        have := hno (i + 1) (by simpa using Nat.succ_lt_succ hi)
        simpa using this)
  simp only [parse_paragraphs, hfound, nodeText, nodesText, String.append_empty]
  exact congrArg String.mk (hrepl a h1)

/-- Witness for C10: an interior occurrence after the nonempty prefix
'Jig. ' is deleted. -/
theorem parse_paragraphs_aliases_interior_witness :
    (parse_paragraphs (Node.elem "html" []
        [Node.elem "p" [("class", "info")]
          [Node.text (String.mk ("Jig. ".data ++ akaPhrase ++ "Morrison".data))]])).1 =
      String.mk ("Jig. ".data ++ "Morrison".data) :=
  parse_paragraphs_aliases_interior "Jig. ".data "Morrison".data
    (by decide) (by decide) (by decide)

end SessionTunes
